import Mathlib

/-!
Verification of the CCL compiler front end (parser, symbol table / semantic
analyzer, complexity analyzer) against its natural-language specification.

The Python sources are shallowly embedded: each `visit_*` method of
`SymbolTableBuilder` (src/ccl/symboltable.py) becomes a case of a fuel-indexed
interpreter over an explicit analyzer state; the mutable symbol-table tree
becomes an explicit chain (local scopes, the method table, the global table);
Python exceptions become an explicit error type, with uncaught host exceptions
(KeyError, TypeError from bad call arity, ...) modelled by `Err.hostError`.
Python `==`/`hash` on AST constraint nodes (src/ccl/ast.py) are modelled by
`pyEqConstraint` / `pyHashConstraint`, the latter parametric in a `HashEnv`
supplying the hashes the host does not pin down (strings, enum members);
integer hashes follow the documented host rule `hash n = n mod (2^61 - 1)`
for small non-negative integers.
-/

set_option maxHeartbeats 1000000

namespace CCL

/-! ## Types (src/ccl/types.py) -/

/-- `ObjectType`: Atom or Bond. -/
inductive ObjectType
  | ATOM
  | BOND
deriving DecidableEq

/-- `NumericType`: Int or Float. -/
inductive NumericType
  | INT
  | FLOAT
deriving DecidableEq

/-- `ParameterType`: atom, bond or common parameter. -/
inductive ParameterType
  | ATOM
  | BOND
  | COMMON
deriving DecidableEq

/-- Types occurring as arguments / returns in the `FUNCTIONS` catalog
(`FunctionType` components in types.py). -/
inductive BType
  | str
  | bool
  | obj (o : ObjectType)
  | numeric (n : NumericType)
  | array (indices : List ObjectType)
deriving DecidableEq

/-- Signature of a built-in function (functions.py `Function` carrying a
`FunctionType`). -/
structure FuncSig where
  args : List BType
  ret : BType
deriving DecidableEq

/-- Result types of expressions and types of symbols.  `array` models
`ArrayType` (equality by the index tuple), `func` a whole `FunctionType`. -/
inductive CType
  | str
  | bool
  | obj (o : ObjectType)
  | numeric (n : NumericType)
  | param (p : ParameterType)
  | array (indices : List ObjectType)
  | func (sig : FuncSig)
deriving DecidableEq

/-- Embed a catalog component type into the result-type universe. -/
def bToC : BType → CType
  | .str => .str
  | .bool => .bool
  | .obj o => .obj o
  | .numeric n => .numeric n
  | .array ix => .array ix

/-- Python `==` between a catalog component type and an expression result type
(`None` result compares unequal to everything). -/
def bEqResult (b : BType) (t : Option CType) : Bool :=
  match t with
  | some c => bToC b == c
  | none => false

/-! ## Function and predicate catalog (src/ccl/functions.py) -/

/-- The eight math functions added to the global table. -/
def MATH_FUNCTIONS : List String :=
  ["exp", "sqrt", "sin", "cos", "tan", "sinh", "cosh", "tanh"]

/-- The `FUNCTIONS` dictionary: math functions, `inv`, atom/bond properties,
`distance`. -/
def FUNCTIONS (name : String) : Option FuncSig :=
  if MATH_FUNCTIONS.contains name then
    some ⟨[.numeric .FLOAT], .numeric .FLOAT⟩
  else if name == "inv" then
    some ⟨[.array [.ATOM, .ATOM]], .array [.ATOM, .ATOM]⟩
  else if ["electronegativity", "covalent radius", "van der waals radius",
           "hardness", "ionization potential", "electron affinity"].contains name then
    some ⟨[.obj .ATOM], .numeric .FLOAT⟩
  else if ["atomic number", "valence electron count", "formal charge"].contains name then
    some ⟨[.obj .ATOM], .numeric .INT⟩
  else if name == "bond order" then
    some ⟨[.obj .BOND], .numeric .INT⟩
  else if name == "distance" then
    some ⟨[.obj .ATOM, .obj .ATOM], .numeric .FLOAT⟩
  else
    none

/-- The `PREDICATES` dictionary. -/
def PREDICATES (name : String) : Option FuncSig :=
  if name == "element" then some ⟨[.obj .ATOM, .str], .bool⟩
  else if name == "bonded" then some ⟨[.obj .ATOM, .obj .ATOM], .bool⟩
  else if name == "near" then some ⟨[.obj .ATOM, .obj .ATOM, .numeric .FLOAT], .bool⟩
  else if name == "bond_distance" then some ⟨[.obj .ATOM, .obj .ATOM, .numeric .INT], .bool⟩
  else none

/-- Modelled from the spec: the static chemical-element list loaded from the
bundled `elements.txt` resource, which is not under src/; only lower-case
element names matter (`common.py` lower-cases each line). -/
def ELEMENT_NAMES : List String :=
  ["h", "he", "li", "be", "b", "c", "n", "o", "f", "ne", "na", "mg", "al",
   "si", "p", "s", "cl", "ar", "k", "ca", "fe", "cu", "zn", "br", "i"]

/-! ## AST (src/ccl/ast.py)

Nodes carry no source positions here (positions never influence the analysis
verified below).  Expression `result_type` slots are not stored on nodes;
the analyzer returns them instead. -/

/-- Binary arithmetic operators (`BinaryOp.Ops`). -/
inductive BinOpKind
  | ADD
  | SUB
  | MUL
  | DIV
  | POW
deriving DecidableEq

/-- Comparison operators (`RelOp.Ops`). -/
inductive RelOpKind
  | LT
  | LE
  | GT
  | GE
  | EQ
  | NEQ
deriving DecidableEq

/-- Binary logical operators (`BinaryLogicalOp.Ops`). -/
inductive BinLogicKind
  | AND
  | OR
deriving DecidableEq

/-- Expressions.  `num` is `Number` (value and numeric type fixed at parse
time), `name` is `Name`, `subscript` a `Name` with `Name` indices, `fn` a
math-function call, `sum` a `Sum`, `ee` an `EE` node (the symbol-table
analysis reads only the two index names and the three sub-expressions, so the
`ee_type`/`radius` slots are omitted). -/
inductive Expr
  | num (val : ℚ) (ntype : NumericType)
  | name (val : String)
  | binop (left : Expr) (op : BinOpKind) (right : Expr)
  | unop (expr : Expr)
  | sum (nm : String) (expr : Expr)
  | subscript (nm : String) (indices : List String)
  | fn (nm : String) (arg : Expr)
  | ee (idxRow idxCol : String) (diag off rhs : Expr)
deriving DecidableEq

/-- A predicate argument is a bare `Name` or a `Number`. -/
inductive PredArg
  | argName (s : String)
  | argNum (val : ℚ) (ntype : NumericType)
deriving DecidableEq

/-- Constraints: `RelOp`, `BinaryLogicalOp`, `UnaryLogicalOp` (only `Not`),
`Predicate`. -/
inductive Constraint
  | relop (lhs : Expr) (op : RelOpKind) (rhs : Expr)
  | binl (lhs : Constraint) (op : BinLogicKind) (rhs : Constraint)
  | unl (c : Constraint)
  | pred (nm : String) (args : List PredArg)
deriving DecidableEq

/-- Assignment / substitution left-hand sides: a `Name` or a `Subscript`. -/
inductive LhsNode
  | lname (s : String)
  | lsub (nm : String) (indices : List String)
deriving DecidableEq

/-- Statements: `Assign`, `For` (bounds are `Number` nodes), `ForEach`. -/
inductive Stmt
  | assign (lhs : LhsNode) (rhs : Expr)
  | forLoop (nm : String) (vfrom vto : ℚ × NumericType) (body : List Stmt)
  | forEach (nm : String) (otype : ObjectType) (atomIdx : Option (String × String))
      (constr : Option Constraint) (body : List Stmt)

/-- Annotations: `Parameter`, `Object`, `Property`, `Constant`,
`Substitution`. -/
inductive Ann
  | parameter (nm : String) (ptype : ParameterType)
  | object (nm : String) (otype : ObjectType) (atomIdx : Option (String × String))
      (constr : Option Constraint)
  | property (nm : String) (prop : String)
  | constant (nm : String) (prop : String) (element : String)
  | substitution (lhs : LhsNode) (rhs : Expr) (constr : Option Constraint)

/-- A `Method`: ordered annotations and statements. -/
structure Method where
  nm : String
  annotations : List Ann
  statements : List Stmt

/-! ## Parser fragments (src/ccl/parser.py) -/

/-- Accumulating base-10 read of a digit list. -/
def digitsToNat : List Char → Nat → Nat
  | [], acc => acc
  | c :: rest, acc => digitsToNat rest (acc * 10 + (c.toNat - '0'.toNat))

/-- Digits-to-value, as the host `int()` computes it on an all-digit string. -/
def natOfDigits (s : String) : Nat :=
  digitsToNat s.data 0

/-- Whether the host `int(text)` succeeds.  The lexer's NUMBER tokens match
`[0-9]+(\.[0-9]+)?`; on such a token, `int` succeeds exactly when the token is
all digits — the host integer type is arbitrary-precision, so success does not
depend on the magnitude. -/
def pyIntParses (s : String) : Bool :=
  !s.data.isEmpty && s.data.all Char.isDigit

/-- Value of a dotted literal as the host `float()` reads it (exact rational
value of the decimal text; rounding to binary floating point is irrelevant to
the produced `NumericType`). -/
def floatVal (text : String) : ℚ :=
  match text.splitOn "." with
  | [a, b] => (natOfDigits a : ℚ) + (natOfDigits b : ℚ) / ((10 : ℚ) ^ b.length)
  | [a] => (natOfDigits a : ℚ)
  | _ => 0

/-- `Parser.visitNumber` (parser.py:137-144): try `int(text)` and tag INT; on
`ValueError` fall back to `float(text)` and tag FLOAT. -/
def visitNumber (text : String) : Expr :=
  if pyIntParses text then .num (natOfDigits text) .INT
  else .num (floatVal text) .FLOAT

/-- The numeric type of a `Number` node. -/
def exprNType : Expr → Option NumericType
  | .num _ t => some t
  | _ => none

/-- The parameter names of `ast.EE.__init__` after `self`
(src/ccl/ast.py:259-268); none of them has a default value. -/
def EE_init_params : List String :=
  ["pos", "idx_row", "idx_col", "diag", "off", "rhs", "ee_type", "radius"]

/-- The positional arguments `Parser.visitEEExpr` passes to `ast.EE`
(src/ccl/parser.py:210-214). -/
def visitEEExpr_args : List String :=
  ["pos", "idx_row", "idx_col", "diag", "off", "rhs"]

/-- A positional host call to a function without default values binds iff the
argument count equals the parameter count; otherwise the host raises
TypeError (missing required positional arguments) before the callee runs. -/
def pyCallBinds (params args : List String) : Bool :=
  params.length == args.length

/-! ## Host equality and hashing on AST nodes (src/ccl/ast.py)

`Number` and `Name` define structural `__eq__`; all other expression kinds
fall back to identity, which a structural embedding models as structural
equality (two structurally equal nodes are indistinguishable here).
`RelOp.__eq__` (ast.py:363-367) and `BinaryLogicalOp.__eq__` (ast.py:315-319)
compare `self.rhs == self.rhs`, i.e. the right operand with itself. -/

/-- Host `==` on expression nodes. -/
def pyEqExpr : Expr → Expr → Bool
  | .num v t, .num w u => v == w && t == u
  | .name s, .name s2 => s == s2
  | e, e2 => e == e2

/-- Host `==` on predicate arguments (`Name`/`Number` equality). -/
def pyEqArg : PredArg → PredArg → Bool
  | .argName s, .argName s2 => s == s2
  | .argNum v t, .argNum w u => v == w && t == u
  | _, _ => false

/-- Host `==` on constraint nodes, transcribing the `self.rhs == self.rhs`
comparisons of `RelOp.__eq__` and `BinaryLogicalOp.__eq__` verbatim. -/
def pyEqConstraint : Constraint → Constraint → Bool
  | .relop l op r, .relop l2 op2 _ =>
      pyEqExpr l l2 && pyEqExpr r r && op == op2
  | .binl l op r, .binl l2 op2 _ =>
      pyEqConstraint l l2 && pyEqConstraint r r && op == op2
  | .unl c, .unl c2 => pyEqConstraint c c2
  | .pred nm args, .pred nm2 args2 =>
      nm == nm2 && args.length == args2.length
        && (args.zip args2).all fun p => pyEqArg p.1 p.2
  | _, _ => false

/-- Host `==` on optional constraints (dictionary keys; `None` equals only
`None`). -/
def pyEqOptC : Option Constraint → Option Constraint → Bool
  | none, none => true
  | some c, some c2 => pyEqConstraint c c2
  | _, _ => false

/-- The hash values the host does not pin down: string hashes are randomized
per process, enum-member and default-object hashes are id-based, tuple hashes
are a fixed but involved mix of the element hashes.  All theorems about
hashing quantify over this environment. -/
structure HashEnv where
  hStr : String → Nat
  hNumType : NumericType → Nat
  hNumOther : ℚ → Nat
  hRelOp : RelOpKind → Nat
  hBinLOp : BinLogicKind → Nat
  hNotOp : Nat
  hTuple : List Nat → Nat
  hNone : Nat
  hExprOther : Expr → Nat

/-- A concrete instantiation of the unpinned hash values. -/
def defaultEnv : HashEnv :=
  ⟨fun _ => 0, fun _ => 0, fun _ => 0, fun _ => 0, fun _ => 0, 0, fun _ => 0, 0, fun _ => 0⟩

/-- `Number.__hash__` is `hash(self.val) ^ hash(self.result_type)`; the host
documents `hash n = n mod (2^61 - 1)` for non-negative integers. -/
def pyHashNum (env : HashEnv) (v : ℚ) (t : NumericType) : Nat :=
  (if v.den == 1 && 0 ≤ v.num then v.num.toNat % (2 ^ 61 - 1) else env.hNumOther v)
    ^^^ env.hNumType t

/-- Host `hash` on expression nodes (`Name.__hash__` is `hash(self.val)`). -/
def pyHashExpr (env : HashEnv) : Expr → Nat
  | .num v t => pyHashNum env v t
  | .name s => env.hStr s
  | e => env.hExprOther e

/-- Host `hash` on predicate arguments. -/
def pyHashArg (env : HashEnv) : PredArg → Nat
  | .argName s => env.hStr s
  | .argNum v t => pyHashNum env v t

/-- Host `hash` on constraint nodes: `RelOp.__hash__` is
`hash(lhs) ^ hash(rhs) ^ hash(op)` (ast.py:369-370), and likewise for the
other kinds. -/
def pyHashConstraint (env : HashEnv) : Constraint → Nat
  | .relop l op r => pyHashExpr env l ^^^ pyHashExpr env r ^^^ env.hRelOp op
  | .binl l op r => pyHashConstraint env l ^^^ pyHashConstraint env r ^^^ env.hBinLOp op
  | .unl c => env.hNotOp ^^^ pyHashConstraint env c
  | .pred nm args => env.hStr nm ^^^ env.hTuple (args.map (pyHashArg env))

/-- Host `hash` on optional constraints. -/
def pyHashOptC (env : HashEnv) : Option Constraint → Nat
  | none => env.hNone
  | some c => pyHashConstraint env c

/-- Host dictionary membership `k in d`: some stored key has the same hash as
`k` and compares `==` to it. -/
def dictHasKey (env : HashEnv) (keys : List (Option Constraint)) (k : Option Constraint) : Bool :=
  keys.any fun k2 => pyHashOptC env k2 == pyHashOptC env k && pyEqOptC k2 k

/-! ## Errors (src/ccl/errors.py)

`synError`, `symbolError` and `typeError` are the three `CCLCodeError`
subclasses; `hostError` models uncaught host exceptions, which are not
`CCLError`s at all. -/

/-- Analysis outcome errors. -/
inductive Err
  | synError
  | symbolError
  | typeError
  | hostError (kind : String)
deriving DecidableEq

/-! ## Symbols and symbol tables (src/ccl/symboltable.py) -/

/-- Symbol kinds: `ParameterSymbol`, `ObjectSymbol`, `FunctionSymbol`,
`VariableSymbol`, `SubstitutionSymbol` (ordered rule list standing for the
insertion-ordered rules dictionary), `ConstantSymbol`. -/
inductive Symbol
  | paramSym (ptype : ParameterType)
  | objSym (otype : ObjectType) (constraints : Option Constraint)
  | funcSym (fname : String) (sig : FuncSig)
  | varSym (vtype : CType)
  | substSym (indices : List String) (rules : List (Option Constraint × Expr))
  | constSym (fname : String) (sig : FuncSig) (element : String)
deriving DecidableEq

/-- `Symbol.symbol_type()` for every kind except `SubstitutionSymbol`
(whose `symbol_type` reads the result type of the default rule and is handled
at each call site). -/
def symbolTypeNS : Symbol → Option CType
  | .paramSym p => some (.param p)
  | .objSym o _ => some (.obj o)
  | .funcSym _ sig => some (.func sig)
  | .varSym t => some t
  | .constSym _ sig _ => some (bToC sig.ret)
  | .substSym _ _ => none

/-- Is this a `SubstitutionSymbol`? -/
def isSubstSym : Symbol → Bool
  | .substSym _ _ => true
  | _ => false

/-- The default (`None`-guarded) rule of a substitution's rule dictionary. -/
def lookupNoneRule (rules : List (Option Constraint × Expr)) : Option Expr :=
  (rules.find? fun p => p.1.isNone).map Prod.snd

/-- One scope's mapping from names to symbols, in insertion order. -/
abbrev Table := List (String × Symbol)

/-- Lookup in a single table (`s in self.symbols`). -/
def lookupT (t : Table) (n : String) : Option Symbol :=
  (t.find? fun p => p.1 == n).map Prod.snd

/-- `SymbolTable.resolve`: innermost-first along a chain of tables. -/
def resolveTables : List Table → String → Option Symbol
  | [], _ => none
  | t :: ts, n =>
      match lookupT t n with
      | some s => some s
      | none => resolveTables ts n

/-- Analyzer state: the global table, the method table (its parent is the
global table), the stack of open local scopes (innermost first), the
`_iterating_over` set and the `_indices_mapping` dictionary. -/
structure St where
  global : Table
  method : Table
  locals : List Table
  iterating : List String
  mapping : List (String × String)
deriving DecidableEq

/-- The current scope chain, innermost first. -/
def chain (st : St) : List Table := st.locals ++ [st.method, st.global]

/-- `self.current_table.resolve n`. -/
def resolveChain (st : St) (n : String) : Option Symbol := resolveTables (chain st) n

/-- `self.symbol_table.resolve n` (method table upward). -/
def resolveMG (st : St) (n : String) : Option Symbol :=
  resolveTables [st.method, st.global] n

/-- `self.global_table.resolve n` (no parent). -/
def resolveG (st : St) (n : String) : Option Symbol := lookupT st.global n

/-- `self.global_table.define s`. -/
def defineG (st : St) (n : String) (s : Symbol) : Except Err St :=
  if (resolveG st n).isSome then .error .symbolError
  else .ok { st with global := st.global ++ [(n, s)] }

/-- `self.symbol_table.define s`. -/
def defineM (st : St) (n : String) (s : Symbol) : Except Err St :=
  if (resolveMG st n).isSome then .error .symbolError
  else .ok { st with method := st.method ++ [(n, s)] }

/-- `define` on the innermost open scope (resolution runs over the whole
chain, as `SymbolTable.define` resolves through parents). -/
def defineTop (st : St) (n : String) (s : Symbol) : Except Err St :=
  if (resolveChain st n).isSome then .error .symbolError
  else match st.locals with
    | [] => .ok { st with method := st.method ++ [(n, s)] }
    | t :: ts => .ok { st with locals := (t ++ [(n, s)]) :: ts }

/-- `define` on the parent of the current scope (`visit_Parameter` uses
`self.current_table.parent.define`; during annotation processing the current
scope is the method table, whose parent is the global table). -/
def defineParentOfCurrent (st : St) (n : String) (s : Symbol) : Except Err St :=
  match st.locals with
  | [] => defineG st n s
  | [_] => defineM st n s
  | l0 :: t :: ts =>
      if (resolveTables (t :: ts ++ [st.method, st.global]) n).isSome then .error .symbolError
      else .ok { st with locals := l0 :: (t ++ [(n, s)]) :: ts }

/-- Open a fresh child scope (`SymbolTable(self.current_table)` followed by
`self.current_table = table`). -/
def pushLocal (st : St) : St := { st with locals := [] :: st.locals }

/-- Restore the parent scope. -/
def popLocal (st : St) : St := { st with locals := st.locals.tail }

/-- `self._indices_mapping.get(k, k)`. -/
def mget (m : List (String × String)) (k : String) : String :=
  ((m.find? fun p => p.1 == k).map Prod.snd).getD k

/-- Dictionary update of one key (replace in place or append). -/
def mset (m : List (String × String)) (k v : String) : List (String × String) :=
  if (m.find? fun p => p.1 == k).isSome then
    m.map fun p => if p.1 == k then (k, v) else p
  else m ++ [(k, v)]

/-- `dict.update` over a list of pairs. -/
def msetAll (m : List (String × String)) : List (String × String) → List (String × String)
  | [] => m
  | (k, v) :: rest => msetAll (mset m k v) rest

/-- `dict.pop k` without a default: drops the key, raising the host KeyError
if it is absent. -/
def mpop (m : List (String × String)) (k : String) : Except Err (List (String × String)) :=
  if (m.find? fun p => p.1 == k).isSome then
    .ok (m.filter fun p => p.1 ≠ k)
  else .error (.hostError "KeyError")

/-- `dict.pop` over a list of keys. -/
def mpopAll (m : List (String × String)) : List String → Except Err (List (String × String))
  | [] => .ok m
  | k :: rest => do mpopAll (← mpop m k) rest

/-- Set insertion (`set.add`). -/
def sadd (s : List String) (x : String) : List String :=
  if s.contains x then s else s ++ [x]

/-- Set removal (`set.remove` / set difference of one element). -/
def sdel (s : List String) (x : String) : List String :=
  s.filter fun y => y ≠ x

/-- The `iterating_over` property: `_iterating_over` with every element pushed
through `_indices_mapping`. -/
def iteratingOver (st : St) : List String :=
  st.iterating.map (mget st.mapping)

/-! ## The semantic analyzer (`SymbolTableBuilder`, src/ccl/symboltable.py)

One fuel-indexed interpreter over AST nodes.  `run env fuel st v` visits node
`v` in state `st`, returning the node's `result_type` (`none` when the source
leaves the slot unset) and the updated state; running out of fuel models the
host's RecursionError. -/

/-- The kinds of node a visit can dispatch on: expression, constraint,
statement, statement list. -/
inductive VNode
  | e (x : Expr)
  | c (x : Constraint)
  | s (x : Stmt)
  | sl (xs : List Stmt)

/-- The recursive visitor as seen by one dispatch step. -/
abbrev RecFn := St → VNode → Except Err (Option CType × St)

/-- Is this result type an `ObjectType`? -/
def isObjTy : Option CType → Bool
  | some (.obj _) => true
  | _ => false

/-- Whether adding this result type to a host `set` raises TypeError:
`ArrayType` and `FunctionType` define `__eq__` without `__hash__` and are
unhashable. -/
def unhashableTy : Option CType → Bool
  | some (.array _) => true
  | some (.func _) => true
  | _ => false

/-- `types.add(expr.result_type)` for the substitution rule-type set. -/
def addTypeSet (acc : List (Option CType)) (t : Option CType) :
    Except Err (List (Option CType)) :=
  if unhashableTy t then .error (.hostError "TypeError")
  else .ok (if acc.contains t then acc else acc ++ [t])

/-- `visit_Name` line 230: a COMMON parameter resolves as Float. -/
def commonAdjust (t : Option CType) : Option CType :=
  if t == some (.param .COMMON) then some (.numeric .FLOAT) else t

/-- `check_types` inside `visit_Assign` (symboltable.py:301-313). -/
def checkTypes : CType → CType → Bool
  | .array ixl, .array ixr => ixl == ixr
  | .array _, .numeric _ => true
  | .numeric l, .numeric r => if l == .INT && r == .FLOAT then false else true
  | _, _ => false

/-- `check_args` inside `visit_Function` (symboltable.py:370-376). -/
def checkArgsFn (expected : BType) (given : Option CType) : Bool :=
  bEqResult expected given
    || (given == some (.numeric .INT) && expected == .numeric .FLOAT)

/-- The type-combination logic of `visit_BinaryOp` (symboltable.py:391-440),
applied to the two operand result types.  A `.ok none` result models the
source falling through all branches without setting `result_type` (possible
only for array operands of dimension other than 1 and 2 under `*`). -/
def binopResultType (op : BinOpKind) (lt rt : Option CType) :
    Except Err (Option CType) :=
  match lt, rt with
  | some (.numeric a), some (.numeric b) =>
      if a == .FLOAT || b == .FLOAT then .ok (some (.numeric .FLOAT))
      else .ok (some (.numeric .INT))
  | some (.array ixl), some (.array ixr) =>
      match op with
      | .ADD | .SUB =>
          if ixl == ixr then .ok (some (.array ixl)) else .error .typeError
      | .MUL =>
          match ixl, ixr with
          | [a, b], [c, d] =>
              if b ≠ c then .error .typeError else .ok (some (.array [a, d]))
          | [a], [c, d] =>
              if a ≠ c then .error .typeError else .ok (some (.array [d]))
          | [a, b], [c] =>
              if b ≠ c then .error .typeError else .ok (some (.array [a]))
          | [a], [c] =>
              if a ≠ c then .error .typeError else .ok (some (.numeric .FLOAT))
          | _, _ => .ok none
      | _ => .error .typeError
  | some (.array ixl), some (.numeric _) =>
      if op ≠ .MUL ∧ op ≠ .DIV then .error .typeError
      else .ok (some (.array ixl))
  | some (.numeric _), some (.array _) =>
      if op ≠ .MUL ∧ op ≠ .DIV then .error .typeError
      else if op == .DIV then .error .typeError
      else .ok (some (.array (match rt with | some (.array ixr) => ixr | _ => [])))
  | _, _ => .error .typeError

/-- `visit_Name` (symboltable.py:224-236). -/
def visitNameF (recurse : RecFn) (st : St) (nm : String) :
    Except Err (Option CType × St) :=
  let mapped := mget st.mapping nm
  match resolveChain st mapped with
  | none => .error .symbolError
  | some (.substSym _ rules) =>
      match lookupNoneRule rules with
      | none => .error (.hostError "KeyError")
      | some defExpr => do
          let (t, st1) ← recurse st (.e defExpr)
          .ok (commonAdjust t, st1)
  | some s => .ok (commonAdjust (symbolTypeNS s), st)

/-- The index loop of `visit_Subscript` (symboltable.py:245-252): visit each
index, collect its type, and reject an Object-typed index whose mapped name is
not currently iterated. -/
def visitIndicesChecked (recurse : RecFn) :
    List String → St → Except Err (List (Option CType) × St)
  | [], st => .ok ([], st)
  | idx :: rest, st => do
      let (t, st1) ← recurse st (.e (.name idx))
      let mapped := mget st1.mapping idx
      if isObjTy t && !((iteratingOver st1).contains mapped) then
        .error .symbolError
      else do
        let (ts, st2) ← visitIndicesChecked recurse rest st1
        .ok (t :: ts, st2)

/-- The plain index loops of `visit_Assign` (symboltable.py:339-342 and
349-352): visit each index and collect its type, with no further check. -/
def visitIndicesPlain (recurse : RecFn) :
    List String → St → Except Err (List (Option CType) × St)
  | [], st => .ok ([], st)
  | idx :: rest, st => do
      let (t, st1) ← recurse st (.e (.name idx))
      let (ts, st2) ← visitIndicesPlain recurse rest st1
      .ok (t :: ts, st2)

/-- The rule loop of the substitution branch of `visit_Subscript`
(symboltable.py:282-287): visit each guard and body, accumulating the set of
body result types. -/
def visitRules (recurse : RecFn) :
    List (Option Constraint × Expr) → List (Option CType) → St →
    Except Err (List (Option CType) × St)
  | [], acc, st => .ok (acc, st)
  | (g, ex) :: rest, acc, st => do
      let st1 ← match g with
        | some c => do
            let (_, s1) ← recurse st (.c c)
            pure s1
        | none => pure st
      let (t, st2) ← recurse st1 (.e ex)
      let acc2 ← addTypeSet acc t
      visitRules recurse rest acc2 st2

/-- `visit_Subscript` (symboltable.py:238-298). -/
def visitSubscriptF (recurse : RecFn) (st : St) (nm : String) (idxs : List String) :
    Except Err (Option CType × St) := do
  let s := resolveChain st nm
  let (symTy, st1) ← match s with
    | some (.substSym _ _) => pure ((none : Option CType), st)
    | _ => do
        let (t, st') ← recurse st (.e (.name nm))
        pure (t, st')
  let (its, st2) ← visitIndicesChecked recurse idxs st1
  match s with
  | some (.paramSym _) =>
      if (symTy == some (.param .ATOM) && its ≠ [some (.obj .ATOM)])
          || (symTy == some (.param .BOND)
              && !([[some (CType.obj .BOND)],
                    [some (CType.obj .ATOM), some (CType.obj .ATOM)]].contains its)) then
        .error .typeError
      else if symTy == some (.param .COMMON) then .error .typeError
      else .ok (some (.numeric .FLOAT), st2)
  | some (.varSym (.array shape)) =>
      if (shape.map fun o => some (CType.obj o)) ≠ its then .error .typeError
      else .ok (some (.numeric .FLOAT), st2)
  | some (.funcSym _ sig) =>
      if !(sig.args.length == its.length
            && ((sig.args.zip its).all fun p => bEqResult p.1 p.2)) then
        .error .typeError
      else .ok (some (bToC sig.ret), st2)
  | some (.substSym sIdx rules) =>
      if sIdx.length ≠ its.length then .error .typeError
      else if !(its.all isObjTy) then .error .typeError
      else do
        let st3 := { st2 with mapping := msetAll st2.mapping (sIdx.zip idxs) }
        let (types, st4) ← visitRules recurse rules [] st3
        if types.length > 1 then .error .typeError
        else do
          let m2 ← mpopAll st4.mapping sIdx
          .ok (some (.numeric .FLOAT), { st4 with mapping := m2 })
  | _ => .error .typeError

/-- `visit_Function` (symboltable.py:368-389). -/
def visitFunctionF (recurse : RecFn) (st : St) (nm : String) (arg : Expr) :
    Except Err (Option CType × St) := do
  let (t, st1) ← recurse st (.e arg)
  match FUNCTIONS nm with
  | none => .error .symbolError
  | some f =>
      match f.args with
      | [] => .error (.hostError "IndexError")
      | expected :: _ =>
          if checkArgsFn expected t then .ok (some (bToC f.ret), st1)
          else .error .typeError

/-- `visit_Sum` (symboltable.py:496-512).  For a substitution symbol,
`s.symbol_type()` reads `self.rules[None]`, raising the host KeyError when no
default rule exists; otherwise the symbol is not an `ObjectSymbol` and the
analysis raises a `CCLSymbolError`. -/
def visitSumF (recurse : RecFn) (st : St) (nm : String) (ex : Expr) :
    Except Err (Option CType × St) :=
  match resolveChain st nm with
  | none => .error .symbolError
  | some (.objSym _ constr) => do
      let st1 := { st with iterating := sadd st.iterating nm }
      let st2 ← match constr with
        | some c => do
            let (_, s1) ← recurse st1 (.c c)
            pure s1
        | none => pure st1
      let (t, st3) ← recurse st2 (.e ex)
      .ok (t, { st3 with iterating := sdel st3.iterating nm })
  | some (.substSym _ rules) =>
      match lookupNoneRule rules with
      | none => .error (.hostError "KeyError")
      | some _ => .error .symbolError
  | some _ => .error .symbolError

/-- `visit_EE` (symboltable.py:514-538). -/
def visitEEF (recurse : RecFn) (st : St) (row col : String) (diag off rhs : Expr) :
    Except Err (Option CType × St) :=
  if (resolveChain st row).isSome || (resolveChain st col).isSome then
    .error .symbolError
  else do
    let st1 := pushLocal st
    let st2 ← defineTop st1 row (.objSym .ATOM none)
    let st3 ← defineTop st2 col (.objSym .ATOM none)
    let st4 := { st3 with iterating := sadd (sadd st3.iterating row) col }
    let (td, st5) ← recurse st4 (.e diag)
    let (tof, st6) ← recurse st5 (.e off)
    let (tr, st7) ← recurse st6 (.e rhs)
    if unhashableTy td || unhashableTy tof || unhashableTy tr then
      .error (.hostError "TypeError")
    else if !(td == some (.numeric .FLOAT) && tof == some (.numeric .FLOAT)
              && tr == some (.numeric .FLOAT)) then
      .error .typeError
    else
      let st8 := { st7 with iterating := sdel (sdel st7.iterating row) col }
      .ok (some (.array [.ATOM]), popLocal st8)

/-- The per-argument checks of `visit_Predicate` (symboltable.py:575-591). -/
def checkPredArgs (recurse : RecFn) :
    List (BType × PredArg) → St → Except Err St
  | [], st => .ok st
  | (bt, arg) :: rest, st => do
      let st' ← (match bt with
        | .obj o => do
            let argE : Expr := match arg with
              | .argName s => .name s
              | .argNum v t => .num v t
            let (t, st1) ← recurse st (.e argE)
            match arg with
            | .argName s =>
                let nmapped := mget st1.mapping s
                if !((iteratingOver st1).contains nmapped) then .error .symbolError
                else if t ≠ some (.obj o) then .error .typeError
                else pure st1
            | .argNum _ _ =>
                -- `self._indices_mapping.get` returns the number itself, which
                -- is never in the (string-valued) iterating set
                .error .symbolError
        | .str =>
            match arg with
            | .argName _ => pure st
            | _ => .error .typeError
        | .numeric _ =>
            match arg with
            | .argNum _ _ => pure st
            | .argName _ => .error .typeError
        | _ => .error (.hostError "Exception"))
      checkPredArgs recurse rest st'

/-- `visit_Predicate` (symboltable.py:565-594). -/
def visitPredicateF (recurse : RecFn) (st : St) (nm : String) (args : List PredArg) :
    Except Err (Option CType × St) :=
  match PREDICATES nm with
  | none => .error .symbolError
  | some f =>
      if f.args.length ≠ args.length then .error .symbolError
      else do
        let st' ← checkPredArgs recurse (f.args.zip args) st
        if nm == "element" then
          match args.get? 1 with
          | some (.argName s) =>
              if ELEMENT_NAMES.contains s.toLower then .ok (none, st')
              else .error .typeError
          | some (.argNum _ _) => .error (.hostError "AttributeError")
          | none => .error (.hostError "IndexError")
        else .ok (none, st')

/-- `visit_Assign` (symboltable.py:300-366). -/
def visitAssignF (recurse : RecFn) (st : St) (lhs : LhsNode) (rhs : Expr) :
    Except Err (Option CType × St) := do
  let (rt, st1) ← recurse st (.e rhs)
  let rt' ← match rt with
    | some (.numeric n) => pure (CType.numeric n)
    | some (.array ix) => pure (CType.array ix)
    | _ => .error Err.typeError
  match lhs with
  | .lname v =>
      match resolveChain st1 v with
      | some sym =>
          if st1.iterating.contains v then .error .typeError
          else match sym with
          | .substSym _ _ => .error .symbolError
          | .paramSym _ => .error .symbolError
          | s =>
              match symbolTypeNS s with
              | some lt =>
                  if checkTypes lt rt' then .ok (none, st1) else .error .typeError
              | none => .error (.hostError "KeyError")
      | none => do
          let st2 ← defineM st1 v (.varSym rt')
          .ok (none, st2)
  | .lsub nm idxs =>
      let s := resolveChain st1 nm
      let (its, st2) ← visitIndicesPlain recurse idxs st1
      match s with
      | some (.substSym _ _) => .error .symbolError
      | some sym =>
          match symbolTypeNS sym with
          | some (.array shape) => do
              let (its2, st3) ← visitIndicesPlain recurse idxs st2
              if (shape.map fun o => some (CType.obj o)) ≠ its2 then .error .typeError
              else .ok (none, st3)
          | _ => .error .typeError
      | none =>
          if its.all isObjTy then do
            let shape := its.filterMap fun t =>
              match t with | some (.obj o) => some o | _ => none
            let st3 ← defineM st2 nm (.varSym (.array shape))
            .ok (none, st3)
          else .error .typeError

/-- `visit_For` (symboltable.py:446-462). -/
def visitForF (recurse : RecFn) (st : St) (nm : String) (body : List Stmt) :
    Except Err (Option CType × St) :=
  if (resolveChain st nm).isSome then .error .symbolError
  else do
    let st1 := { st with iterating := sadd st.iterating nm }
    let st2 := pushLocal st1
    let st3 ← defineTop st2 nm (.varSym (.numeric .INT))
    let (_, st4) ← recurse st3 (.sl body)
    let st5 := { st4 with iterating := sdel st4.iterating nm }
    .ok (none, popLocal st5)

/-- `visit_ForEach` (symboltable.py:464-494).  The loop constraint is stored
on the symbol, not visited here. -/
def visitForEachF (recurse : RecFn) (st : St) (nm : String) (ot : ObjectType)
    (atomIdx : Option (String × String)) (constr : Option Constraint)
    (body : List Stmt) : Except Err (Option CType × St) :=
  if (resolveChain st nm).isSome then .error .symbolError
  else do
    let st1 := pushLocal st
    let st2 ← match atomIdx with
      | none => pure st1
      | some (i1, i2) =>
          if (resolveChain st i1).isSome || (resolveChain st i2).isSome then
            .error .symbolError
          else do
            let a ← defineTop st1 i1 (.objSym .ATOM none)
            defineTop a i2 (.objSym .ATOM none)
    let st3 := { st2 with iterating :=
      match atomIdx with
      | some (i1, i2) => sadd (sadd (sadd st2.iterating i1) i2) nm
      | none => sadd st2.iterating nm }
    let st4 ← defineTop st3 nm (.objSym ot constr)
    let (_, st5) ← recurse st4 (.sl body)
    let st6 := { st5 with iterating :=
      match atomIdx with
      | some (i1, i2) => sdel (sdel (sdel st5.iterating nm) i1) i2
      | none => sdel st5.iterating nm }
    .ok (none, popLocal st6)

/-- One dispatch step of the visitor (constraint kinds without a dedicated
`visit_` method run `generic_visit`, which visits the child nodes in attribute
order). -/
def runF (recurse : RecFn) (st : St) : VNode → Except Err (Option CType × St)
  | .e (.num _ t) => .ok (some (.numeric t), st)
  | .e (.name nm) => visitNameF recurse st nm
  | .e (.binop l _op r) => do
      let (lt, st1) ← recurse st (.e l)
      let (rt, st2) ← recurse st1 (.e r)
      match binopResultType _op lt rt with
      | .ok t => .ok (t, st2)
      | .error e => .error e
  | .e (.unop ex) => do
      let (t, st1) ← recurse st (.e ex)
      .ok (t, st1)
  | .e (.sum nm ex) => visitSumF recurse st nm ex
  | .e (.subscript nm idxs) => visitSubscriptF recurse st nm idxs
  | .e (.fn nm arg) => visitFunctionF recurse st nm arg
  | .e (.ee row col diag off rhs) => visitEEF recurse st row col diag off rhs
  | .c (.relop l _ r) => do
      let (_, st1) ← recurse st (.e l)
      let (_, st2) ← recurse st1 (.e r)
      .ok (none, st2)
  | .c (.binl l _ r) => do
      let (_, st1) ← recurse st (.c l)
      let (_, st2) ← recurse st1 (.c r)
      .ok (none, st2)
  | .c (.unl c0) => do
      let (_, st1) ← recurse st (.c c0)
      .ok (none, st1)
  | .c (.pred nm args) => visitPredicateF recurse st nm args
  | .s (.assign lhs rhs) => visitAssignF recurse st lhs rhs
  | .s (.forLoop nm _ _ body) => visitForF recurse st nm body
  | .s (.forEach nm ot aidx constr body) => visitForEachF recurse st nm ot aidx constr body
  | .sl [] => .ok (none, st)
  | .sl (x :: xs) => do
      let (_, st1) ← recurse st (.s x)
      recurse st1 (.sl xs)

/-- The fuel-indexed visitor. -/
def run : Nat → St → VNode → Except Err (Option CType × St)
  | 0, _, _ => .error (.hostError "RecursionError")
  | fuel + 1, st, v => runF (fun s n => run fuel s n) st v

/-! ## Annotation processing (src/ccl/symboltable.py:189-222, 540-563) -/

/-- Replace the rule dictionary of the substitution symbol stored under `nm`
in the global table. -/
def updateSubstRules (st : St) (nm : String)
    (newRules : List (Option Constraint × Expr)) : St :=
  { st with global := st.global.map fun p =>
      if p.1 == nm then
        (p.1, match p.2 with
              | .substSym ix _ => .substSym ix newRules
              | s => s)
      else p }

/-- The body of `visit_Substitution` after the left-hand side has been taken
apart (symboltable.py:550-563): define a fresh `SubstitutionSymbol` in the
global table, or merge into an existing one. -/
def substDefineOrMerge (env : HashEnv) (st : St) (nm : String) (idxs : List String)
    (rhs : Expr) (constr : Option Constraint) : Except Err St :=
  match resolveChain st nm with
  | none => do
      let st1 ← defineG st nm (.substSym idxs [(constr, rhs)])
      .ok st1
  | some (.substSym sIdx rules) =>
      if idxs ≠ sIdx then .error .symbolError
      else if dictHasKey env (rules.map Prod.fst) constr then .error .typeError
      else .ok (updateSubstRules st nm (rules ++ [(constr, rhs)]))
  | some _ => .error .symbolError

/-- `visit_Substitution` (symboltable.py:540-563). -/
def visitSubstitutionF (env : HashEnv) (st : St) (lhs : LhsNode) (rhs : Expr)
    (constr : Option Constraint) : Except Err St :=
  match lhs with
  | .lname nm =>
      if constr.isSome then .error .symbolError
      else substDefineOrMerge env st nm [] rhs constr
  | .lsub nm idxs => substDefineOrMerge env st nm idxs rhs constr

/-- One annotation visit (`visit_Parameter`, `visit_Object`,
`visit_Property`, `visit_Constant`, `visit_Substitution`). -/
def visitAnnotationF (env : HashEnv) (st : St) : Ann → Except Err St
  | .parameter nm pt => defineParentOfCurrent st nm (.paramSym pt)
  | .object nm ot atomIdx constr =>
      match atomIdx with
      | some (i1, i2) =>
          if (resolveChain st i1).isSome || (resolveChain st i2).isSome then
            .error .symbolError
          else do
            let st1 ← defineG st i1 (.objSym .ATOM none)
            let st2 ← defineG st1 i2 (.objSym .ATOM none)
            defineG st2 nm (.objSym ot constr)
      | none => defineG st nm (.objSym ot constr)
  | .property nm prop =>
      match FUNCTIONS prop with
      | none => .error .symbolError
      | some f => defineG st nm (.funcSym prop f)
  | .constant nm prop elem =>
      match FUNCTIONS prop with
      | none => .error .symbolError
      | some f =>
          if f.args.length ≠ 1 || f.args.head? ≠ some (.obj .ATOM) then
            .error .typeError
          else defineG st nm (.constSym prop f elem)
  | .substitution lhs rhs constr => visitSubstitutionF env st lhs rhs constr

/-- Visit the annotation list in order. -/
def visitAnnList (env : HashEnv) : List Ann → St → Except Err St
  | [], st => .ok st
  | a :: rest, st => do
      visitAnnList env rest (← visitAnnotationF env st a)

/-- Does a substitution symbol (if that is what this is) have a default
rule? -/
def substHasDefault : Symbol → Bool
  | .substSym _ rules => (lookupNoneRule rules).isSome
  | _ => true

/-- `check_substitutions_default` (symboltable.py:172-177): every
`SubstitutionSymbol` in the global table must carry the `None` guard. -/
def checkSubstitutionsDefault (st : St) : Except Err Unit :=
  if st.global.all fun p => substHasDefault p.2 then .ok ()
  else .error .symbolError

/-- The state `SymbolTableBuilder.__init__` produces: the global table holds
the math functions and the reserved vector `q : Array(Atom)`; the method table
is empty and the method scope is current. -/
def initialSt : St :=
  { global :=
      (MATH_FUNCTIONS.map fun n => (n, Symbol.funcSym n ⟨[.numeric .FLOAT], .numeric .FLOAT⟩))
        ++ [("q", .varSym (.array [.ATOM]))]
    method := []
    locals := []
    iterating := []
    mapping := [] }

/-- `visit_Method` (symboltable.py:179-187) run from a fresh builder:
annotations, then statements, then the default-rule check. -/
def visitMethod (env : HashEnv) (fuel : Nat) (m : Method) : Except Err St := do
  let st1 ← visitAnnList env m.annotations initialSt
  let (_, st2) ← run fuel st1 (.sl m.statements)
  let _ ← checkSubstitutionsDefault st2
  .ok st2

/-! ## Complexity analyzer fragments (src/ccl/complexity.py) -/

/-- `OBJECT_COMPLEXITY` (complexity.py:8). -/
def OBJECT_COMPLEXITY : ObjectType → String
  | .ATOM => "N"
  | .BOND => "M"

/-- The test `isinstance(s.symbol_type, ast.ArrayType)` as written at
complexity.py:20 and :47: `symbol_type` is a method, so the attribute is a
bound-method object, never an `ArrayType` instance, and the test is `False`
for every symbol. -/
def isinstanceBoundMethodArrayType (_ : Symbol) : Bool := false

/-- The index tuple `s.symbol_type.indices` the dead branch would read. -/
def symbolTypeIndices (s : Symbol) : List ObjectType :=
  match symbolTypeNS s with
  | some (.array ix) => ix
  | _ => []

/-- The `init_complexity` list built by `Complexity.visit_Method`
(complexity.py:18-21): one `N`/`M` product term per symbol passing the
`isinstance` test as written. -/
def complexityInitTerms (tbl : Table) : List String :=
  (tbl.filter fun p => isinstanceBoundMethodArrayType p.2).map fun p =>
    String.intercalate " * " ((symbolTypeIndices p.2).map OBJECT_COMPLEXITY)

/-- The allocation terms the specification prescribes: one additive term per
array-typed `VariableSymbol` declared, equal to the product of its shape
dimensions mapped to `N` (Atom) or `M` (Bond). -/
def complexityInitTermsSpec (tbl : Table) : List String :=
  tbl.filterMap fun p =>
    match p.2 with
    | .varSym (.array ix) => some (String.intercalate " * " (ix.map OBJECT_COMPLEXITY))
    | _ => none

/-- `Complexity.visit_Assign` (complexity.py:43-50) restricted to the
statement shapes exercised below: a `Name` left-hand side and a `Number`
right-hand side (`visit_Number` returns "0"); the `isinstance` test on the
bound method is again always `False`, so the assignment cost is "1". -/
def complexityStmtTerm (methodTbl globalTbl : Table) : Stmt → Option String
  | .assign (.lname v) (.num _ _) =>
      match resolveTables [methodTbl, globalTbl] v with
      | some s =>
          let assignCost :=
            if isinstanceBoundMethodArrayType s then
              String.intercalate " * " ((symbolTypeIndices s).map OBJECT_COMPLEXITY)
            else "1"
          some (assignCost ++ " + " ++ "0")
      | none => none
  | _ => none

/-- The raw additive complexity string `Complexity.visit_Method` assembles
(complexity.py:17-25) before handing it to the symbolic simplifier, for the
statement shapes covered by `complexityStmtTerm`. -/
def complexityVisitMethod (methodTbl globalTbl : Table) (stmts : List Stmt) :
    Option String := do
  let sterms ← stmts.mapM (complexityStmtTerm methodTbl globalTbl)
  pure (String.intercalate " + " (complexityInitTerms methodTbl ++ sterms))

/-- The same assembly with the allocation terms the specification
prescribes. -/
def complexityVisitMethodSpec (methodTbl globalTbl : Table) (stmts : List Stmt) :
    Option String := do
  let sterms ← stmts.mapM (complexityStmtTerm methodTbl globalTbl)
  pure (String.intercalate " + " (complexityInitTermsSpec methodTbl ++ sterms))

/-! ## Specification-side definitions used for comparison -/

/-- The shape algebra the specification prescribes for `×` on two arrays:
vector·vector with equal shapes is a Float dot product, vector·matrix with
agreeing first dimensions is a vector of the matrix's second dimension,
matrix·vector with conforming inner dimensions is a vector of the matrix's
first dimension, matrix·matrix with conforming inner dimensions is the outer
matrix; every non-conforming combination is a type error. -/
def mulShapeSpec (l r : List ObjectType) : Except Err (Option CType) :=
  match l, r with
  | [a], [b] =>
      if a = b then .ok (some (.numeric .FLOAT)) else .error .typeError
  | [a], [b, c] =>
      if a = b then .ok (some (.array [c])) else .error .typeError
  | [a, b], [c] =>
      if b = c then .ok (some (.array [a])) else .error .typeError
  | [a, b], [c, d] =>
      if b = c then .ok (some (.array [a, d])) else .error .typeError
  | _, _ => .error .typeError

/-! ## Helper lemmas -/

lemma xor_left_cancel_nat {a b c : Nat} (h : a ^^^ b = a ^^^ c) : b = c := by
  have h2 := congrArg (fun z => a ^^^ z) h
  simpa [← Nat.xor_assoc] using h2

lemma xor_right_cancel_nat {a b c : Nat} (h : b ^^^ a = c ^^^ a) : b = c := by
  rw [Nat.xor_comm b a, Nat.xor_comm c a] at h
  exact xor_left_cancel_nat h

lemma xor3_ne {a c x y : Nat} (hxy : x ≠ y) : a ^^^ x ^^^ c ≠ a ^^^ y ^^^ c := by
  intro h
  exact hxy (xor_left_cancel_nat (xor_right_cancel_nat h))

lemma pyEqExpr_refl (e : Expr) : pyEqExpr e e = true := by
  cases e <;> simp [pyEqExpr]

lemma pyEqArg_refl (a : PredArg) : pyEqArg a a = true := by
  cases a <;> simp [pyEqArg]

lemma zip_self_all_pyEqArg :
    ∀ args : List PredArg, ((args.zip args).all fun p => pyEqArg p.1 p.2) = true
  | [] => rfl
  | a :: t => by
      simp [List.zip_cons_cons, List.all_cons, pyEqArg_refl, zip_self_all_pyEqArg t]

lemma pyEqConstraint_refl (c : Constraint) : pyEqConstraint c c = true := by
  induction c with
  | relop l op r => simp [pyEqConstraint, pyEqExpr_refl]
  | binl l op r ihl ihr => simp [pyEqConstraint, ihl, ihr]
  | unl c ih => simp [pyEqConstraint, ih]
  | pred nm args => simp [pyEqConstraint, zip_self_all_pyEqArg]

lemma defineG_parts {st : St} {n : String} {s : Symbol} {st' : St}
    (h : defineG st n s = Except.ok st') :
    st'.method = st.method ∧ st'.locals = st.locals := by
  unfold defineG at h
  split at h
  · exact Except.noConfusion h
  · injection h with h
    subst h
    exact ⟨rfl, rfl⟩

lemma digitsToNat_replicate9 : ∀ n acc : Nat, n + acc ≤ digitsToNat (List.replicate n '9') acc
  | 0, acc => by simp [digitsToNat]
  | n + 1, acc => by
      simp only [List.replicate_succ, digitsToNat]
      have h := digitsToNat_replicate9 n (acc * 10 + ('9'.toNat - '0'.toNat))
      have h9 : ('9'.toNat - '0'.toNat) = 9 := rfl
      omega

lemma replicate9_all_digits (n : Nat) : ((List.replicate n '9').all Char.isDigit) = true := by
  induction n with
  | zero => rfl
  | succ n ih => simp only [List.replicate_succ, List.all_cons, ih, Bool.and_true]; rfl

/-! ## Definitions specific to claim C10 -/

/-- The guard `x < 1`. -/
def c10guard1 : Constraint := .relop (.name "x") .LT (.num 1 .INT)

/-- The guard `x < 2`: same left operand and operator as `c10guard1`,
different right operand. -/
def c10guard2 : Constraint := .relop (.name "x") .LT (.num 2 .INT)

/-- A state whose global table holds the substitution `chi[i]` with the single
guarded rule `c10guard1 ↦ 1.0`. -/
def c10state : St :=
  { global := [("chi", .substSym ["i"] [(some c10guard1, .num 1 .FLOAT)])]
    method := []
    locals := []
    iterating := []
    mapping := [] }

lemma relop_num_hash_ne (env : HashEnv) (l : Expr) (op : RelOpKind) :
    pyHashConstraint env (.relop l op (.num 1 .INT))
      ≠ pyHashConstraint env (.relop l op (.num 2 .INT)) := by
  have h1 : pyHashNum env 1 .INT = 1 ^^^ env.hNumType .INT := rfl
  have h2 : pyHashNum env 2 .INT = 2 ^^^ env.hNumType .INT := rfl
  simp only [pyHashConstraint, pyHashExpr, h1, h2]
  exact xor3_ne fun hh => absurd (xor_right_cancel_nat hh) (by decide)

lemma c10_dict_false (env : HashEnv) :
    dictHasKey env [some c10guard1] (some c10guard2) = false := by
  have h : (pyHashConstraint env c10guard1 == pyHashConstraint env c10guard2) = false :=
    beq_eq_false_iff_ne.mpr (relop_num_hash_ne env (.name "x") .LT)
  simp [dictHasKey, pyHashOptC, c10guard1, c10guard2] at h ⊢
  simp [h]

@[simp] lemma except_bind_ok {α β : Type} (a : α) (f : α → Except Err β) :
    (Except.ok a : Except Err α) >>= f = f a := rfl

@[simp] lemma except_bind_error {α β : Type} (e : Err) (f : α → Except Err β) :
    (Except.error e : Except Err α) >>= f = Except.error e := rfl

lemma substDefineOrMerge_parts {env : HashEnv} {st : St} {nm : String}
    {idxs : List String} {rhs : Expr} {constr : Option Constraint} {st' : St}
    (h : substDefineOrMerge env st nm idxs rhs constr = .ok st') :
    st'.method = st.method ∧ st'.locals = st.locals := by
  unfold substDefineOrMerge at h
  split at h
  · cases h1 : defineG st nm (.substSym idxs [(constr, rhs)]) with
    | error e =>
        rw [h1] at h
        simp only [except_bind_error] at h
        exact Except.noConfusion h
    | ok st1 =>
        rw [h1] at h
        simp only [except_bind_ok] at h
        injection h with h
        subst h
        exact defineG_parts h1
  · split at h
    · exact Except.noConfusion h
    · split at h
      · exact Except.noConfusion h
      · injection h with h
        subst h
        exact ⟨rfl, rfl⟩
  · exact Except.noConfusion h

/-! ## Claims -/

/-- C1 (code_bug): the S1 scenario cannot compile at all.  `ast.EE.__init__`
takes eight positional parameters after `self`, none with a default, but
`Parser.visitEEExpr` passes only six, so building any EE node raises the
host's TypeError — an unclassified host exception, not one of the three CCL
error kinds — before semantic analysis begins.  The last conjunct shows the
intended downstream behaviour the specification describes: had the node been
built, `visit_EE` would type it as `Array(Atom)`. -/
theorem C1_ee_parser_arity :
    pyCallBinds EE_init_params visitEEExpr_args = false
    ∧ EE_init_params.length = 8
    ∧ visitEEExpr_args.length = 6
    ∧ (run 10 initialSt
        (.e (.ee "i" "j" (.num 1 .FLOAT) (.num 1 .FLOAT) (.num 1 .FLOAT)))).map Prod.fst
        = .ok (some (.array [.ATOM])) :=
  ⟨rfl, rfl, rfl, rfl⟩

/-- C4 (code_bug): the complexity analyzer never emits the per-array
allocation terms.  The test `isinstance(s.symbol_type, ast.ArrayType)` at
complexity.py:20 examines the bound method object, so it is False for every
symbol and the `init_complexity` list is empty for every symbol table; on a
method table declaring `V : Array(Atom, Atom)` and `x : Int` with the single
statement `x = 0`, the analyzer assembles `"1 + 0"` where the specification
prescribes the additional `N * N` allocation term. -/
theorem C4_allocation_terms_never_emitted :
    (∀ tbl : Table, complexityInitTerms tbl = [])
    ∧ complexityInitTermsSpec
        [("V", .varSym (.array [.ATOM, .ATOM])), ("x", .varSym (.numeric .INT))]
        = ["N * N"]
    ∧ complexityVisitMethod
        [("V", .varSym (.array [.ATOM, .ATOM])), ("x", .varSym (.numeric .INT))]
        initialSt.global [.assign (.lname "x") (.num 0 .INT)] = some "1 + 0"
    ∧ complexityVisitMethodSpec
        [("V", .varSym (.array [.ATOM, .ATOM])), ("x", .varSym (.numeric .INT))]
        initialSt.global [.assign (.lname "x") (.num 0 .INT)] = some "N * N + 1 + 0" := by
  refine ⟨?_, rfl, rfl, rfl⟩
  intro tbl
  simp [complexityInitTerms, isinstanceBoundMethodArrayType]

/-- C7 (confirmed): typing `×` on two array operands of dimension 1 or 2
agrees exactly with the specification's shape algebra (`visit_BinaryOp`,
symboltable.py:408-424): dot product, vector·matrix, matrix·vector,
matrix·matrix, with a `CCLTypeError` in every non-conforming case — in
particular for `Array(Atom, Bond) × Array(Atom)`. -/
theorem C7_mul_shape_algebra (l r : List ObjectType)
    (hl : l.length = 1 ∨ l.length = 2) (hr : r.length = 1 ∨ r.length = 2) :
    binopResultType .MUL (some (.array l)) (some (.array r)) = mulShapeSpec l r := by
  have hl2 : (∃ a, l = [a]) ∨ ∃ a b, l = [a, b] := by
    rcases hl with h | h
    · exact Or.inl (List.length_eq_one.mp h)
    · exact Or.inr (List.length_eq_two.mp h)
  have hr2 : (∃ a, r = [a]) ∨ ∃ a b, r = [a, b] := by
    rcases hr with h | h
    · exact Or.inl (List.length_eq_one.mp h)
    · exact Or.inr (List.length_eq_two.mp h)
  clear hl hr
  rcases hl2 with ⟨a, rfl⟩ | ⟨a, b, rfl⟩
  · rcases hr2 with ⟨x, rfl⟩ | ⟨x, y, rfl⟩
    · cases a <;> cases x <;> rfl
    · cases a <;> cases x <;> cases y <;> rfl
  · rcases hr2 with ⟨x, rfl⟩ | ⟨x, y, rfl⟩
    · cases a <;> cases b <;> cases x <;> rfl
    · cases a <;> cases b <;> cases x <;> cases y <;> rfl

/-- Witness for C7: the S3 instance `M * u` with `M : Array(Atom, Bond)` and
`u : Array(Atom)` — the inner dimensions Bond and Atom do not match, so both
the code and the shape algebra give a type error. -/
theorem C7_witness :
    binopResultType .MUL (some (.array [.ATOM, .BOND])) (some (.array [.ATOM]))
      = mulShapeSpec [.ATOM, .BOND] [.ATOM]
    ∧ mulShapeSpec [.ATOM, .BOND] [.ATOM] = .error .typeError :=
  ⟨C7_mul_shape_algebra [.ATOM, .BOND] [.ATOM] (Or.inr rfl) (Or.inl rfl), rfl⟩

/-- C8 (confirmed): `check_types` on two numeric types rejects exactly
`Int ← Float` (symboltable.py:307-311), and the S5 program `k = 0; k = 1.5`
fails semantic analysis with a `CCLTypeError`. -/
theorem C8_int_narrowing_rejected :
    (∀ a b : NumericType,
        checkTypes (.numeric a) (.numeric b) = !(a == .INT && b == .FLOAT))
    ∧ visitMethod defaultEnv 10
        ⟨"m", [], [.assign (.lname "k") (.num 0 .INT),
                   .assign (.lname "k") (.num (3 / 2) .FLOAT)]⟩
        = .error .typeError := by
  refine ⟨?_, rfl⟩
  intro a b
  cases a <;> cases b <;> rfl

/-- C9 (corrected): every all-digit literal parses as an Int `Number`
whatever its magnitude — the host integer type is arbitrary-precision, so
`int(text)` never fails on digits and the Float fallback fires only for
literals with a decimal point.  Consequently no threshold exists above which
all-digit literals parse as Float: for every bound there is a larger all-digit
literal that still parses as Int. -/
theorem C9_all_digit_literals_parse_as_Int :
    (∀ s : String, pyIntParses s = true → visitNumber s = .num (natOfDigits s) .INT)
    ∧ (∀ T : Nat, ∃ s : String, pyIntParses s = true ∧ T < natOfDigits s
        ∧ exprNType (visitNumber s) = some .INT) := by
  constructor
  · intro s h
    simp [visitNumber, h]
  · intro T
    have hp : pyIntParses (String.mk (List.replicate (T + 1) '9')) = true := by
      simp [pyIntParses, List.replicate_succ, replicate9_all_digits]
    refine ⟨String.mk (List.replicate (T + 1) '9'), hp, ?_, ?_⟩
    · have h := digitsToNat_replicate9 (T + 1) 0
      simp only [natOfDigits]
      omega
    · simp [visitNumber, hp, exprNType]

/-- Witness for C9: the 21-digit literal 184467440737095516161 (beyond any
64-bit width) satisfies the hypothesis and parses as Int. -/
theorem C9_witness :
    pyIntParses "184467440737095516161" = true
    ∧ visitNumber "184467440737095516161" = .num 184467440737095516161 .INT := by
  have h : pyIntParses "184467440737095516161" = true := by decide
  refine ⟨h, ?_⟩
  have h2 := C9_all_digit_literals_parse_as_Int.1 "184467440737095516161" h
  rw [h2]
  rfl

/-- Counterexample for C9: the all-digit literal 184467440737095516161 exceeds
the host's native 64-bit integer width yet parses as Int, not Float. -/
theorem C9_counterexample :
    exprNType (visitNumber "184467440737095516161") = some .INT
    ∧ (2 : Nat) ^ 64 < natOfDigits "184467440737095516161" :=
  ⟨rfl, by decide⟩

/-- C10 (corrected): `RelOp.__eq__` and `BinaryLogicalOp.__eq__` compare the
right operand with itself, so equality ignores the right-hand side, while
`__hash__` mixes the right operand in, so eq-equal nodes can hash differently
(shown for `x < 1` versus `x < 2`, for every assignment of the unpinned
hashes).  But the duplicate-guard check `node.constraints in s.rules` is host
dictionary membership, which requires hash agreement before `__eq__` is
consulted: the eq-equal guards `x < 1` and `x < 2` are NOT judged duplicates,
and redeclaring `chi[i]` under `x < 2` is accepted — guard distinctness is
judged by hash-then-eq, not by the rhs-blind relation alone. -/
theorem C10_constraint_eq_ignores_rhs :
    (∀ (l : Expr) (op : RelOpKind) (r1 r2 : Expr),
        pyEqConstraint (.relop l op r1) (.relop l op r2) = true)
    ∧ (∀ (c : Constraint) (op : BinLogicKind) (r1 r2 : Constraint),
        pyEqConstraint (.binl c op r1) (.binl c op r2) = true)
    ∧ (∀ (env : HashEnv) (l : Expr) (op : RelOpKind),
        pyHashConstraint env (.relop l op (.num 1 .INT))
          ≠ pyHashConstraint env (.relop l op (.num 2 .INT)))
    ∧ (∀ env : HashEnv,
        pyEqOptC (some c10guard1) (some c10guard2) = true
        ∧ dictHasKey env [some c10guard1] (some c10guard2) = false
        ∧ (substDefineOrMerge env c10state "chi" ["i"]
            (.num 2 .FLOAT) (some c10guard2)).isOk = true) := by
  refine ⟨?_, ?_, ?_, ?_⟩
  · intro l op r1 r2
    simp [pyEqConstraint, pyEqExpr_refl]
  · intro c op r1 r2
    simp [pyEqConstraint, pyEqConstraint_refl]
  · intro env l op
    exact relop_num_hash_ne env l op
  · intro env
    refine ⟨rfl, c10_dict_false env, ?_⟩
    have hres : resolveChain c10state "chi"
        = some (.substSym ["i"] [(some c10guard1, .num 1 .FLOAT)]) := rfl
    unfold substDefineOrMerge
    rw [hres]
    simp [c10_dict_false env, Except.isOk, Except.toBool]

/-- Counterexample for C10: at a concrete hash assignment, the guards `x < 1`
and `x < 2` are `__eq__`-equal, yet the dictionary membership test that
detects duplicate guards does not fire, and the redeclaration of `chi[i]`
under the second guard is accepted — so guard distinctness is not judged by
the rhs-blind relation, contrary to the claim's final clause. -/
theorem C10_counterexample :
    pyEqOptC (some c10guard1) (some c10guard2) = true
    ∧ dictHasKey defaultEnv [some c10guard1] (some c10guard2) = false
    ∧ (substDefineOrMerge defaultEnv c10state "chi" ["i"]
        (.num 2 .FLOAT) (some c10guard2)).isOk = true :=
  ⟨rfl, rfl, rfl⟩

/-- C2 (corrected): annotation-declared names go to the built-in global scope
(the parent of the Method's scope), not into the Method's own table: a
successful annotation visit leaves the method table and the scope stack
untouched (`visit_Parameter` defines through `current_table.parent`, and the
Object/Property/Constant/Substitution visitors define through
`self.global_table`). -/
theorem C2_annotations_define_into_global_scope
    (env : HashEnv) (st : St) (a : Ann) (st' : St)
    (hloc : st.locals = []) (h : visitAnnotationF env st a = .ok st') :
    st'.method = st.method ∧ st'.locals = st.locals := by
  cases a with
  | parameter nm pt =>
      simp only [visitAnnotationF, defineParentOfCurrent, hloc] at h
      exact defineG_parts h
  | object nm ot atomIdx constr =>
      cases atomIdx with
      | none =>
          simp only [visitAnnotationF] at h
          exact defineG_parts h
      | some p =>
          obtain ⟨i1, i2⟩ := p
          simp only [visitAnnotationF] at h
          split at h
          · exact Except.noConfusion h
          · cases h1 : defineG st i1 (.objSym .ATOM none) with
            | error e =>
                rw [h1] at h
                simp only [except_bind_error] at h
                exact Except.noConfusion h
            | ok st1 =>
                rw [h1] at h
                simp only [except_bind_ok] at h
                cases h2 : defineG st1 i2 (.objSym .ATOM none) with
                | error e =>
                    rw [h2] at h
                    simp only [except_bind_error] at h
                    exact Except.noConfusion h
                | ok st2 =>
                    rw [h2] at h
                    simp only [except_bind_ok] at h
                    have p1 := defineG_parts h1
                    have p2 := defineG_parts h2
                    have p3 := defineG_parts h
                    exact ⟨p3.1.trans (p2.1.trans p1.1), p3.2.trans (p2.2.trans p1.2)⟩
  | property nm prop =>
      simp only [visitAnnotationF] at h
      split at h
      · exact Except.noConfusion h
      · exact defineG_parts h
  | constant nm prop elem =>
      simp only [visitAnnotationF] at h
      split at h
      · exact Except.noConfusion h
      · split at h
        · exact Except.noConfusion h
        · exact defineG_parts h
  | substitution lhs rhs constr =>
      cases lhs with
      | lname nm =>
          simp only [visitAnnotationF, visitSubstitutionF] at h
          split at h
          · exact Except.noConfusion h
          · exact substDefineOrMerge_parts h
      | lsub nm idxs =>
          simp only [visitAnnotationF, visitSubstitutionF] at h
          exact substDefineOrMerge_parts h

/-- The state after visiting the annotation `parameter A : atom` from the
initial state. -/
def c2afterParam : St :=
  match visitAnnotationF defaultEnv initialSt (.parameter "A" .ATOM) with
  | .ok s => s
  | .error _ => initialSt

/-- Witness for C2: visiting `parameter A : atom` from the fresh builder state
satisfies the hypotheses and leaves the method table empty. -/
theorem C2_witness :
    initialSt.locals = []
    ∧ c2afterParam.method = initialSt.method
    ∧ c2afterParam.locals = initialSt.locals :=
  ⟨rfl,
   (C2_annotations_define_into_global_scope defaultEnv initialSt
      (.parameter "A" .ATOM) c2afterParam rfl rfl).1,
   (C2_annotations_define_into_global_scope defaultEnv initialSt
      (.parameter "A" .ATOM) c2afterParam rfl rfl).2⟩

/-- Counterexample for C2: after compiling a method whose only annotation is
`parameter A : atom`, the name `A` is a key of the built-in global table and
is absent from the Method's own table — the opposite of the claim. -/
theorem C2_counterexample :
    (visitMethod defaultEnv 10 ⟨"m", [.parameter "A" .ATOM], []⟩).map
      (fun st => ((lookupT st.global "A").isSome, (lookupT st.method "A").isSome))
      = .ok (true, false) := rfl

/-- C3 (corrected): `visit_Name` performs no iteration check — a bare `Name`
that resolves to an `ObjectSymbol` types successfully to its `ObjectType` with
the state unchanged, whatever the `_iterating_over` set; only when such a name
is used as a subscript index does `visit_Subscript` raise a `CCLSymbolError`
for an Object-typed index not currently iterated. -/
theorem C3_bare_object_name_types_successfully :
    (∀ (n : Nat) (st : St) (nm : String) (ot : ObjectType) (c : Option Constraint),
        resolveChain st (mget st.mapping nm) = some (.objSym ot c) →
        run (n + 1) st (.e (.name nm)) = .ok (some (.obj ot), st))
    ∧ (∀ (n : Nat) (st : St) (nm idx : String) (pt : ParameterType) (ot : ObjectType)
        (c : Option Constraint),
        st.mapping = [] →
        resolveChain st nm = some (.paramSym pt) →
        resolveChain st idx = some (.objSym ot c) →
        (iteratingOver st).contains idx = false →
        run (n + 2) st (.e (.subscript nm [idx])) = .error .symbolError) := by
  constructor
  · intro n st nm ot c h
    simp only [run, runF, visitNameF, h]
    simp [commonAdjust, symbolTypeNS]
  · intro n st nm idx pt ot c hmap hnm hidx hit
    have hm : ∀ x : String, mget st.mapping x = x := by
      intro x
      rw [hmap]
      rfl
    simp only [run, runF, visitSubscriptF, hm, hnm]
    simp only [visitNameF, hm, hnm, hidx]
    have hmem : idx ∉ iteratingOver st := by simpa using hit
    cases pt <;>
      simp [commonAdjust, symbolTypeNS, visitIndicesChecked, run, runF, visitNameF,
            hm, hidx, isObjTy, hit, hmem]

/-- Witness for C3: concrete instances of both conjuncts — in a state binding
only the Object name `i` (with empty iterating set), the bare `i` types to
Atom; in a state binding the atom parameter `A` and the Object name `i`, the
subscript `A[i]` raises the symbol error. -/
theorem C3_witness :
    run 3 { global := [("i", .objSym .ATOM none)], method := [], locals := [],
            iterating := [], mapping := [] }
        (.e (.name "i"))
      = .ok (some (.obj .ATOM),
          { global := [("i", .objSym .ATOM none)], method := [], locals := [],
            iterating := [], mapping := [] })
    ∧ run 3 { global := [("A", .paramSym .ATOM), ("i", .objSym .ATOM none)],
              method := [], locals := [], iterating := [], mapping := [] }
        (.e (.subscript "A" ["i"]))
      = .error .symbolError :=
  ⟨C3_bare_object_name_types_successfully.1 2 _ "i" .ATOM none rfl,
   C3_bare_object_name_types_successfully.2 1 _ "A" "i" .ATOM .ATOM none rfl rfl rfl rfl⟩

/-- Counterexample for C3: in a state where `i` is an `ObjectSymbol` and
nothing is being iterated, typing the bare Name `i` succeeds with result type
Atom — no `SymbolError` is raised at the use, contrary to the claim. -/
theorem C3_counterexample :
    run 3 { global := [("i", .objSym .ATOM none)], method := [], locals := [],
            iterating := [], mapping := [] }
        (.e (.name "i"))
      = .ok (some (.obj .ATOM),
          { global := [("i", .objSym .ATOM none)], method := [], locals := [],
            iterating := [], mapping := [] }) := rfl

/-- C5 (corrected): a compiled program's substitutions all carry the default
guard — `visit_Method` ends with `check_substitutions_default`, so success
implies every `SubstitutionSymbol` in the global table has the `None` key —
and a program whose substitution has only guarded rules and is not otherwise
used fails with the `CCLSymbolError` from that final check. -/
theorem C5_guarded_only_substitution_fails :
    (∀ (env : HashEnv) (fuel : Nat) (m : Method) (st : St),
        visitMethod env fuel m = .ok st →
        (st.global.all fun p => substHasDefault p.2) = true)
    ∧ visitMethod defaultEnv 10
        ⟨"m", [.substitution (.lsub "chi" ["i"]) (.num 1 .FLOAT)
                (some (.relop (.name "x") .LT (.num 1 .INT)))], []⟩
        = .error .symbolError := by
  refine ⟨?_, rfl⟩
  intro env fuel m st h
  unfold visitMethod at h
  cases h1 : visitAnnList env m.annotations initialSt with
  | error e =>
      rw [h1] at h
      simp only [except_bind_error] at h
      exact Except.noConfusion h
  | ok st1 =>
      rw [h1] at h
      simp only [except_bind_ok] at h
      cases h2 : run fuel st1 (.sl m.statements) with
      | error e =>
          rw [h2] at h
          simp only [except_bind_error] at h
          exact Except.noConfusion h
      | ok p =>
          obtain ⟨t, st2⟩ := p
          rw [h2] at h
          simp only [except_bind_ok] at h
          unfold checkSubstitutionsDefault at h
          split at h
          · next hall =>
              simp only [except_bind_ok] at h
              injection h with h
              subst h
              exact hall
          · simp only [except_bind_error] at h
            exact Except.noConfusion h

/-- A method whose single substitution has only the default rule. -/
def c5okProg : Method :=
  ⟨"m", [.substitution (.lsub "chi" ["i"]) (.num 1 .FLOAT) none], []⟩

/-- The state its compilation produces. -/
def c5okState : St :=
  match visitMethod defaultEnv 10 c5okProg with
  | .ok s => s
  | .error _ => initialSt

/-- Witness for C5: the default-only substitution program compiles, and every
substitution in its final global table carries the default guard. -/
theorem C5_witness :
    (c5okState.global.all fun p => substHasDefault p.2) = true :=
  C5_guarded_only_substitution_fails.1 defaultEnv 10 c5okProg c5okState rfl

/-- Counterexample for C5: when the guarded-only substitution name is used as
a bare Name in a statement, `visit_Name` evaluates `s.rules[None]` and the
failure is the host's KeyError — an unclassified host exception — not the
`CCLSymbolError` the claim asserts for every such program. -/
theorem C5_counterexample :
    visitMethod defaultEnv 10
      ⟨"m", [.substitution (.lsub "chi" ["i"]) (.num 1 .FLOAT)
              (some (.relop (.name "x") .LT (.num 1 .INT)))],
            [.assign (.lname "y") (.name "chi")]⟩
      = .error (.hostError "KeyError")
    ∧ Err.hostError "KeyError" ≠ Err.symbolError :=
  ⟨rfl, by decide⟩

/-- C6 (corrected): redeclaring a substitution name is accepted iff the formal
index tuple matches and the guard is new; a name already bound to a
non-substitution symbol or an index-tuple mismatch raises `CCLSymbolError`,
but a duplicate guard raises `CCLTypeError` (symboltable.py:561-562) — not the
`SymbolError` the claim asserts for every failing case. -/
theorem C6_substitution_merge_outcomes (env : HashEnv) (st : St) (nm : String)
    (idxs : List String) (rhs : Expr) (c : Option Constraint) :
    (∀ s0, resolveChain st nm = some s0 → isSubstSym s0 = false →
        substDefineOrMerge env st nm idxs rhs c = .error .symbolError)
    ∧ (∀ sIdx rules, resolveChain st nm = some (.substSym sIdx rules) → idxs ≠ sIdx →
        substDefineOrMerge env st nm idxs rhs c = .error .symbolError)
    ∧ (∀ sIdx rules, resolveChain st nm = some (.substSym sIdx rules) → idxs = sIdx →
        dictHasKey env (rules.map Prod.fst) c = true →
        substDefineOrMerge env st nm idxs rhs c = .error .typeError)
    ∧ (∀ sIdx rules, resolveChain st nm = some (.substSym sIdx rules) → idxs = sIdx →
        dictHasKey env (rules.map Prod.fst) c = false →
        substDefineOrMerge env st nm idxs rhs c
          = .ok (updateSubstRules st nm (rules ++ [(c, rhs)]))) := by
  refine ⟨?_, ?_, ?_, ?_⟩
  · intro s0 hres hns
    unfold substDefineOrMerge
    rw [hres]
    cases s0 <;> simp_all [isSubstSym]
  · intro sIdx rules hres hne
    unfold substDefineOrMerge
    rw [hres]
    simp [hne]
  · intro sIdx rules hres heq hdict
    unfold substDefineOrMerge
    rw [hres]
    simp [heq, hdict]
  · intro sIdx rules hres heq hdict
    unfold substDefineOrMerge
    rw [hres]
    simp [heq, hdict]

/-- Witness for C6: redeclaring `chi[i]` with the guard already in its rule
dictionary (same formal indices) raises the type error. -/
theorem C6_witness :
    substDefineOrMerge defaultEnv
      { global := [("chi", .substSym ["i"]
          [(some (.relop (.name "z") .GT (.num 1 .INT)), .num 1 .FLOAT)])],
        method := [], locals := [], iterating := [], mapping := [] }
      "chi" ["i"] (.num 2 .FLOAT) (some (.relop (.name "z") .GT (.num 1 .INT)))
      = .error .typeError :=
  (C6_substitution_merge_outcomes defaultEnv _ "chi" ["i"] _ _).2.2.1
    ["i"] _ rfl rfl rfl

/-- Counterexample for C6: a program declaring the same guard twice for
`chi[i]` fails with `CCLTypeError`, not the `CCLSymbolError` the claim
asserts. -/
theorem C6_counterexample :
    visitMethod defaultEnv 10
      ⟨"m", [.substitution (.lsub "chi" ["i"]) (.num 1 .FLOAT)
              (some (.relop (.name "x") .LT (.num 1 .INT))),
             .substitution (.lsub "chi" ["i"]) (.num 2 .FLOAT)
              (some (.relop (.name "x") .LT (.num 1 .INT)))], []⟩
      = .error .typeError
    ∧ Err.typeError ≠ Err.symbolError :=
  ⟨rfl, by decide⟩

end CCL
